import Mathlib

set_option maxHeartbeats 1000000

/-!
Shallow embedding of `main.py` from the `sebi-updates` repository.

The program is a linear, single-shot pipeline: fetch the SEBI announcements
index page, compare the first row's title against a persisted last-update
file, locate and download the announcement's PDF, extract its text, optionally
summarize it through the Hugging Face inference API, post a MarkdownV2
message to Telegram, and (only on a confirmed send) persist the title.

Modelling conventions:
* Python strings are `List Char` (sequences of Unicode code points), bytes are
  `List Nat`.
* Network and library effects (`requests`, BeautifulSoup parse results,
  `pdfplumber`) are explicit oracle parameters; an oracle returning
  `Option`/`Except.error` models the corresponding Python exception, which the
  source catches with a broad `try`/`except` and degrades to `None`/`""`/`False`.
* The persisted state file is an `Option PyStr` (`none` = file absent); the
  only uncaught exceptions in the source are those raised while reading or
  writing that file (`load_last_update`/`save_last_update` have no
  `try`/`except`), modelled by the `readRaises`/`writeRaises` fields below.
-/

/-- Python strings modelled as lists of Unicode code points. -/
abbrev PyStr := List Char

/-- Python truthiness of an optional string: `None` and `""` are falsy. -/
def pyFalsy : Option PyStr → Bool
  | none => true
  | some s => s.isEmpty

/-- Python truthiness of an optional bytes value: `None` and `b""` are falsy. -/
def pyFalsyBytes : Option (List Nat) → Bool
  | none => true
  | some b => b.isEmpty

/-- The whitespace characters removed by Python's `str.strip()`
(modelled over the ASCII whitespace set). -/
def pyIsSpace (c : Char) : Bool :=
  c = ' ' || c = '\t' || c = '\n' || c = '\r' || c = '\x0b' || c = '\x0c'

/-- Remove leading whitespace (Python `str.lstrip()`). -/
def stripLeft (l : PyStr) : PyStr := l.dropWhile pyIsSpace

/-- Remove trailing whitespace (Python `str.rstrip()`). -/
def stripRight (l : PyStr) : PyStr := (l.reverse.dropWhile pyIsSpace).reverse

/-- Python `str.strip()`. -/
def pyStrip (l : PyStr) : PyStr := stripRight (stripLeft l)

/-- Python's `in` operator on strings and bytes: contiguous substring test. -/
def hasSub {α : Type} [BEq α] (pat : List α) : List α → Bool
  | [] => pat.isEmpty
  | x :: xs => pat.isPrefixOf (x :: xs) || hasSub pat xs

/-- The MarkdownV2 reserved characters of `escape_markdown` (main.py line 27):
the raw Python string `_*[]()~`>#+-=|{}.!`.  Note that the backslash itself is
not in this set. -/
def reservedChars : PyStr := "_*[]()~`>#+-=|\x7b\x7d.!".data

/-- Membership in the reserved character class of `escape_markdown`. -/
def isReserved (c : Char) : Bool := reservedChars.contains c

/-- `escape_markdown` (main.py lines 26-28): `re.sub` replaces every occurrence
of a reserved character by a backslash followed by that character; all other
characters (including backslashes already present) are copied through. -/
def escape_markdown (l : PyStr) : PyStr :=
  l.flatMap fun c => if isReserved c then ['\\', c] else [c]

/-- Scanning checker for escaped output: `k` counts the backslashes
immediately preceding the current position, and the predicate `ok` must hold
of that count at every reserved character. -/
def escChk (ok : Nat → Bool) : Nat → PyStr → Bool
  | _, [] => true
  | k, c :: rest =>
    if c = '\\' then escChk ok (k + 1) rest
    else if isReserved c then ok k && escChk ok 0 rest
    else escChk ok 0 rest

/-- The character filter keeping exactly the characters the escaping is
claimed to leave alone: outside the reserved set and not a backslash. -/
def neutralChar (c : Char) : Bool := !(isReserved c) && !(c == '\\')

/-- The claim as stated, at one input: every reserved-set occurrence in the
escaped output is preceded by exactly one backslash, and characters outside
the set pass through unchanged. -/
def escapesExactlyOnce (l : PyStr) : Prop :=
  escChk (fun k => k == 1) 0 (escape_markdown l) = true
  ∧ (escape_markdown l).filter neutralChar = l.filter neutralChar

theorem isReserved_backslash : isReserved '\\' = false := by decide

theorem escape_markdown_cons (c : Char) (l : PyStr) :
    escape_markdown (c :: l) =
      (if isReserved c then ['\\', c] else [c]) ++ escape_markdown l := by
  simp [escape_markdown]

theorem escape_markdown_nil : escape_markdown [] = [] := rfl

theorem ne_backslash_of_isReserved {c : Char} (h : isReserved c = true) :
    c ≠ '\\' := by
  intro hc
  rw [hc, isReserved_backslash] at h
  exact Bool.noConfusion h

theorem escChk_atLeast (l : PyStr) :
    ∀ k, escChk (fun k => k != 0) k (escape_markdown l) = true := by
  induction l with
  | nil => intro k; simp [escape_markdown_nil, escChk]
  | cons c l ih =>
    intro k
    rw [escape_markdown_cons]
    by_cases hr : isReserved c = true
    · have hc : c ≠ '\\' := ne_backslash_of_isReserved hr
      simp [hr, escChk, hc]
      exact ih 0
    · by_cases hb : c = '\\'
      · subst hb
        simp [isReserved_backslash, escChk]
        exact ih (k + 1)
      · simp [hr, escChk, hb]
        exact ih 0

theorem escChk_exact (l : PyStr) (h : '\\' ∉ l) :
    escChk (fun k => k == 1) 0 (escape_markdown l) = true := by
  induction l with
  | nil => simp [escape_markdown_nil, escChk]
  | cons c l ih =>
    have hc : c ≠ '\\' := fun hcc => h (hcc ▸ List.mem_cons_self c l)
    have hl : '\\' ∉ l := fun hm => h (List.mem_cons_of_mem c hm)
    rw [escape_markdown_cons]
    by_cases hr : isReserved c = true
    · simp [hr, escChk, hc]
      exact ih hl
    · simp [hr, escChk, hc]
      exact ih hl

theorem escape_markdown_filter_neutral (l : PyStr) :
    (escape_markdown l).filter neutralChar = l.filter neutralChar := by
  induction l with
  | nil => simp [escape_markdown_nil]
  | cons c l ih =>
    rw [escape_markdown_cons, List.filter_append]
    by_cases hr : isReserved c = true
    · simp [hr, List.filter_cons, neutralChar, ih]
    · by_cases hb : c = '\\'
      · subst hb
        simp [isReserved_backslash, List.filter_cons, neutralChar, ih]
      · simp [hr, List.filter_cons, neutralChar, hb, ih]

theorem escape_markdown_count (l : PyStr) (c : Char) (hr : isReserved c = true) :
    (escape_markdown l).count c = l.count c := by
  have hc : c ≠ '\\' := ne_backslash_of_isReserved hr
  induction l with
  | nil => simp [escape_markdown_nil]
  | cons d l ih =>
    rw [escape_markdown_cons, List.count_append]
    by_cases hd : isReserved d = true
    · simp [hd, List.count_cons, Ne.symm hc, ih]
      omega
    · simp [hd, List.count_cons, ih]
      omega

/-- C3 counterexample: at the input `"\."` (a backslash followed by a dot) the
escaped output is `"\\."`, so the reserved character `.` is preceded by two
backslashes, not exactly one; the claim as stated fails on inputs that
already contain backslashes. -/
theorem escape_markdown_exactly_once_counterexample :
    ¬ escapesExactlyOnce ['\\', '.'] := by
  unfold escapesExactlyOnce
  decide

/-- C3 (amended): in the output of `escape_markdown`, every reserved-set
occurrence is immediately preceded by at least the one backslash the function
inserts, and by exactly one backslash whenever the input contains no
backslash; characters outside the reserved set (including backslashes already
present) pass through unaltered, and reserved-character occurrences are
preserved. -/
theorem escape_markdown_escaping_spec (l : PyStr) (c : Char) :
    escChk (fun k => k != 0) 0 (escape_markdown l) = true
    ∧ ('\\' ∉ l → escChk (fun k => k == 1) 0 (escape_markdown l) = true)
    ∧ (escape_markdown l).filter neutralChar = l.filter neutralChar
    ∧ (isReserved c = true → (escape_markdown l).count c = l.count c) :=
  ⟨escChk_atLeast l 0, escChk_exact l, escape_markdown_filter_neutral l,
   escape_markdown_count l c⟩

/-- C3 witness: the amended escaping property evaluated at the concrete
backslash-free input `"a.b_c!"` and the reserved character `.`. -/
theorem escape_markdown_escaping_spec_witness :
    escChk (fun k => k != 0) 0 (escape_markdown ("a.b_c!".data)) = true
    ∧ escChk (fun k => k == 1) 0 (escape_markdown ("a.b_c!".data)) = true
    ∧ (escape_markdown ("a.b_c!".data)).filter neutralChar
        = ("a.b_c!".data).filter neutralChar
    ∧ (escape_markdown ("a.b_c!".data)).count '.' = ("a.b_c!".data).count '.' :=
  ⟨(escape_markdown_escaping_spec ("a.b_c!".data) '.').1,
   (escape_markdown_escaping_spec ("a.b_c!".data) '.').2.1 (by decide),
   (escape_markdown_escaping_spec ("a.b_c!".data) '.').2.2.1,
   (escape_markdown_escaping_spec ("a.b_c!".data) '.').2.2.2 (by decide)⟩

/-- `save_last_update` (main.py lines 155-157): overwrites the state file with
exactly the given title.  The result is the new file content. -/
def save_last_update (title : PyStr) : PyStr := title

/-- `load_last_update` (main.py lines 149-153), exception-free part: `none` if
the file does not exist, otherwise the file content with surrounding
whitespace stripped (`f.read().strip()`). -/
def load_last_update (file : Option PyStr) : Option PyStr := file.map pyStrip

/-- C10: saving a title and then loading returns the title with surrounding
whitespace stripped, so the round-trip is the identity exactly for titles
with no surrounding whitespace. -/
theorem save_load_roundtrip_spec (t : PyStr) :
    load_last_update (some (save_last_update t)) = some (pyStrip t)
    ∧ (load_last_update (some (save_last_update t)) = some t ↔ pyStrip t = t) := by
  refine ⟨rfl, ?_⟩
  constructor
  · intro h
    simpa [load_last_update, save_last_update] using h
  · intro h
    simp [load_last_update, save_last_update, h]

/-- C10 witness: the round trip at the concrete titles `"  a "` (stripped to
`"a"`) and `"a"` (returned unchanged). -/
theorem save_load_roundtrip_spec_witness :
    load_last_update (some (save_last_update ("  a ".data))) = some ("a".data)
    ∧ load_last_update (some (save_last_update ("a".data))) = some ("a".data) :=
  ⟨by rw [(save_load_roundtrip_spec ("  a ".data)).1]; decide,
   by rw [(save_load_roundtrip_spec ("a".data)).1]; decide⟩

/-- Environment-variable configuration (main.py lines 18-23): `os.getenv`
yields `none` when a variable is unset; an empty value is also falsy. -/
structure Config where
  hfApiKey : Option PyStr
  hfModel : PyStr
  telegramToken : Option PyStr
  telegramChatId : Option PyStr

/-- Response of the Hugging Face inference endpoint as observed by
`summarize_text`: the HTTP status, the raw body (`response.text`), and the
result of `response.json()[0].get("summary_text", ...)` — `Except.error`
models an exception raised while decoding or indexing the JSON body, `ok
none` a first element without a `summary_text` field. -/
structure HfResponse where
  status : Nat
  body : PyStr
  summaryField : Except PyStr (Option PyStr)

/-- Fixed diagnostic returned when no Hugging Face API key is configured. -/
def noHfKeyMsg : PyStr := "⚠️ No Hugging Face API key set.".data

/-- Diagnostic returned when the first JSON element has no summary field. -/
def noSummaryMsg : PyStr := "⚠️ No summary returned.".data

/-- Prefix of the diagnostic embedding a non-success response body. -/
def summaryFailedPrefix : PyStr := "⚠️ Summary failed: ".data

/-- Prefix of the diagnostic embedding a transport exception message. -/
def summaryErrorPrefix : PyStr := "⚠️ Summary error: ".data

/-- The payload field submitted to the summarization endpoint
(main.py line 110): `text[:2000]`, the first 2000 code points. -/
def hf_payload (text : PyStr) : PyStr := text.take 2000

/-- `summarize_text` (main.py lines 104-118).  The network is the oracle
`post`, keyed by the submitted payload (the model URL and bearer header are
fixed by the configuration); `Except.error` models a `requests` exception. -/
def summarize_text (cfg : Config) (post : PyStr → Except PyStr HfResponse)
    (text : PyStr) : PyStr :=
  if pyFalsy cfg.hfApiKey then noHfKeyMsg
  else
    match post (hf_payload text) with
    | Except.error e => summaryErrorPrefix ++ e
    | Except.ok r =>
      if r.status = 200 then
        match r.summaryField with
        | Except.error e => summaryErrorPrefix ++ e
        | Except.ok none => noSummaryMsg
        | Except.ok (some s) => s
      else summaryFailedPrefix ++ r.body

/-- C5: the summarizer always returns a displayable string: with no API
credential it returns the fixed diagnostic and is independent of the network
oracle (no network call); on a transport exception it returns a diagnostic
embedding the exception message; on a non-success status it returns a
diagnostic embedding the response body. -/
theorem summarize_text_never_raises_spec (cfg : Config)
    (post post' : PyStr → Except PyStr HfResponse) (text : PyStr)
    (r : HfResponse) (e : PyStr) :
    (pyFalsy cfg.hfApiKey = true →
        summarize_text cfg post text = noHfKeyMsg
        ∧ summarize_text cfg post text = summarize_text cfg post' text)
    ∧ (pyFalsy cfg.hfApiKey = false →
        post (hf_payload text) = Except.error e →
        summarize_text cfg post text = summaryErrorPrefix ++ e)
    ∧ (pyFalsy cfg.hfApiKey = false →
        post (hf_payload text) = Except.ok r → r.status ≠ 200 →
        summarize_text cfg post text = summaryFailedPrefix ++ r.body) := by
  refine ⟨fun hk => ?_, fun hk hp => ?_, fun hk hp hs => ?_⟩
  · constructor <;> simp [summarize_text, hk]
  · simp [summarize_text, hk, hp]
  · simp [summarize_text, hk, hp, hs]

/-- C5 witness: the three summarizer branches evaluated concretely — an unset
key, a transport error `"boom"`, and a 500 response with body `"bad"`. -/
theorem summarize_text_never_raises_spec_witness :
    summarize_text ⟨none, [], none, none⟩ (fun _ => Except.ok ⟨200, [], Except.ok none⟩) ("t".data) = noHfKeyMsg
    ∧ summarize_text ⟨some ("k".data), [], none, none⟩ (fun _ => Except.error ("boom".data)) ("t".data)
        = summaryErrorPrefix ++ "boom".data
    ∧ summarize_text ⟨some ("k".data), [], none, none⟩ (fun _ => Except.ok ⟨500, "bad".data, Except.ok none⟩) ("t".data)
        = summaryFailedPrefix ++ "bad".data :=
  ⟨((summarize_text_never_raises_spec ⟨none, [], none, none⟩
      (fun _ => Except.ok ⟨200, [], Except.ok none⟩)
      (fun _ => Except.ok ⟨200, [], Except.ok none⟩) ("t".data)
      ⟨200, [], Except.ok none⟩ []).1 rfl).1,
   (summarize_text_never_raises_spec ⟨some ("k".data), [], none, none⟩
      (fun _ => Except.error ("boom".data)) (fun _ => Except.error ("boom".data))
      ("t".data) ⟨500, "bad".data, Except.ok none⟩ ("boom".data)).2.1 rfl rfl,
   (summarize_text_never_raises_spec ⟨some ("k".data), [], none, none⟩
      (fun _ => Except.ok ⟨500, "bad".data, Except.ok none⟩)
      (fun _ => Except.ok ⟨500, "bad".data, Except.ok none⟩)
      ("t".data) ⟨500, "bad".data, Except.ok none⟩ []).2.2 rfl rfl (by decide)⟩

/-- C6: the payload submitted to the summarization endpoint is exactly the
first 2000 characters of the text when the text is longer than 2000
characters (a 2000-character prefix), and the text itself otherwise. -/
theorem summarize_truncation_spec (text : PyStr) :
    (2000 < text.length →
        (hf_payload text).length = 2000 ∧ hf_payload text <+: text)
    ∧ (text.length ≤ 2000 → hf_payload text = text) := by
  constructor
  · intro h
    refine ⟨?_, List.take_prefix 2000 text⟩
    simp [hf_payload]
    omega
  · intro h
    simp [hf_payload, List.take_of_length_le h]

/-- C6 witness: truncation evaluated at a 2001-character text (payload length
exactly 2000, a prefix) and at a 1-character text (unchanged). -/
theorem summarize_truncation_spec_witness :
    ((hf_payload (List.replicate 2001 'a')).length = 2000
      ∧ hf_payload (List.replicate 2001 'a') <+: List.replicate 2001 'a')
    ∧ hf_payload ['a'] = ['a'] :=
  ⟨(summarize_truncation_spec (List.replicate 2001 'a')).1
      (by simp only [List.length_replicate]; omega),
   (summarize_truncation_spec ['a']).2 (by simp)⟩

/-- The PDF magic bytes `b"%PDF"` checked by `download_pdf_bytes`. -/
def pdfMagic : List Nat := [37, 80, 68, 70]

/-- `download_pdf_bytes` (main.py lines 84-93).  The oracle `resp` yields the
response body bytes (`none` models a `requests` exception); content without
the `%PDF` signature in its first 1024 bytes is rejected. -/
def download_pdf_bytes (resp : PyStr → Option (List Nat)) (url : PyStr) :
    Option (List Nat) :=
  match resp url with
  | none => none
  | some content =>
    if hasSub pdfMagic (content.take 1024) then some content else none

/-- `extract_text_from_pdf_bytes` (main.py lines 95-101).  The oracle `parse`
models `pdfplumber.open`: `ok pages` gives each page's `extract_text()` result
(`none` when a page yields no text), `error` a parsing exception.  Pages are
joined with `"\n"`; a page without text contributes `""`; any exception
degrades to `""`. -/
def extract_text_from_pdf_bytes
    (parse : List Nat → Except PyStr (List (Option PyStr))) (b : List Nat) :
    PyStr :=
  match parse b with
  | Except.error _ => []
  | Except.ok pages => List.intercalate ['\n'] (pages.map fun t => t.getD [])

/-- C8: the extractor joins per-page texts with newline separators, pages
yielding no text contributing the empty string; any parse-level exception
returns the empty string, which is therefore indistinguishable from a
document whose pages carry no text (the caller's only failure sentinel). -/
theorem extract_text_join_and_sentinel_spec
    (parse : List Nat → Except PyStr (List (Option PyStr))) (b : List Nat)
    (pages : List (Option PyStr)) (e e' : PyStr) :
    (parse b = Except.ok pages →
        extract_text_from_pdf_bytes parse b
          = List.intercalate ['\n'] (pages.map fun t => t.getD []))
    ∧ (parse b = Except.error e →
        extract_text_from_pdf_bytes parse b = [])
    ∧ extract_text_from_pdf_bytes (fun _ => Except.error e') b
        = extract_text_from_pdf_bytes (fun _ => Except.ok [none]) b := by
  refine ⟨fun h => ?_, fun h => ?_, ?_⟩
  · simp [extract_text_from_pdf_bytes, h]
  · simp [extract_text_from_pdf_bytes, h]
  · rfl

/-- C8 witness: a three-page document whose middle page yields no text
extracts to `"a\n\nb"`, and a parsing exception extracts to `""`. -/
theorem extract_text_join_and_sentinel_spec_witness :
    extract_text_from_pdf_bytes
        (fun _ => Except.ok [some ("a".data), none, some ("b".data)]) [1]
      = "a\n\nb".data
    ∧ extract_text_from_pdf_bytes (fun _ => Except.error ("err".data)) [1] = [] :=
  ⟨by
    rw [(extract_text_join_and_sentinel_spec
          (fun _ => Except.ok [some ("a".data), none, some ("b".data)]) [1]
          [some ("a".data), none, some ("b".data)] [] []).1 rfl]
    decide,
   (extract_text_join_and_sentinel_spec
      (fun _ => Except.error ("err".data)) [1] [] ("err".data) []).2.1 rfl⟩

/-- Value of a hexadecimal digit character, as accepted by percent-escapes. -/
def hexDigitVal (c : Char) : Option Nat :=
  if '0' ≤ c ∧ c ≤ '9' then some (c.toNat - '0'.toNat)
  else if 'a' ≤ c ∧ c ≤ 'f' then some (c.toNat - 'a'.toNat + 10)
  else if 'A' ≤ c ∧ c ≤ 'F' then some (c.toNat - 'A'.toNat + 10)
  else none

/-- Whether a byte is a UTF-8 continuation byte. -/
def isCont (b : Nat) : Bool := 0x80 ≤ b && b < 0xC0

/-- Allowed second byte after a three-byte UTF-8 leader (excludes overlong
encodings and surrogates). -/
def contOk3 (b c1 : Nat) : Bool :=
  if b = 0xE0 then 0xA0 ≤ c1 && c1 < 0xC0
  else if b = 0xED then 0x80 ≤ c1 && c1 < 0xA0
  else isCont c1

/-- Allowed second byte after a four-byte UTF-8 leader (excludes overlong
encodings and code points beyond U+10FFFF). -/
def contOk4 (b c1 : Nat) : Bool :=
  if b = 0xF0 then 0x90 ≤ c1 && c1 < 0xC0
  else if b = 0xF4 then 0x80 ≤ c1 && c1 < 0x90
  else isCont c1

/-- The Unicode replacement character emitted for undecodable bytes
(`errors='replace'`). -/
def replChar : Char := '�'

/-- UTF-8 decoding with `errors='replace'`: each maximal ill-formed subpart is
replaced by one replacement character, as in Python's `bytes.decode`. -/
def utf8Decode : List Nat → List Char
  | [] => []
  | b :: rest =>
    if b < 0x80 then Char.ofNat b :: utf8Decode rest
    else if b < 0xC2 then replChar :: utf8Decode rest
    else if b < 0xE0 then
      match rest with
      | [] => [replChar]
      | c1 :: r =>
        if isCont c1 then
          Char.ofNat ((b - 0xC0) * 0x40 + (c1 - 0x80)) :: utf8Decode r
        else replChar :: utf8Decode (c1 :: r)
    else if b < 0xF0 then
      match rest with
      | [] => [replChar]
      | [c1] => if contOk3 b c1 then [replChar] else replChar :: utf8Decode [c1]
      | c1 :: c2 :: r =>
        if contOk3 b c1 then
          if isCont c2 then
            Char.ofNat ((b - 0xE0) * 0x1000 + (c1 - 0x80) * 0x40 + (c2 - 0x80))
              :: utf8Decode r
          else replChar :: utf8Decode (c2 :: r)
        else replChar :: utf8Decode (c1 :: c2 :: r)
    else if b < 0xF5 then
      match rest with
      | [] => [replChar]
      | [c1] => if contOk4 b c1 then [replChar] else replChar :: utf8Decode [c1]
      | [c1, c2] =>
        if contOk4 b c1 then
          if isCont c2 then [replChar] else replChar :: utf8Decode [c2]
        else replChar :: utf8Decode [c1, c2]
      | c1 :: c2 :: c3 :: r =>
        if contOk4 b c1 then
          if isCont c2 then
            if isCont c3 then
              Char.ofNat ((b - 0xF0) * 0x40000 + (c1 - 0x80) * 0x1000
                  + (c2 - 0x80) * 0x40 + (c3 - 0x80)) :: utf8Decode r
            else replChar :: utf8Decode (c3 :: r)
          else replChar :: utf8Decode (c2 :: c3 :: r)
        else replChar :: utf8Decode (c1 :: c2 :: c3 :: r)
    else replChar :: utf8Decode rest

/-- Collect the maximal run of consecutive `%XX` escapes at the head of the
input, returning the decoded bytes and the remaining characters. -/
def takeBytes : List Char → List Nat × List Char
  | '%' :: a :: b :: rest =>
    match hexDigitVal a, hexDigitVal b with
    | some ha, some hb =>
      let p := takeBytes rest
      ((ha * 16 + hb) :: p.1, p.2)
    | _, _ => ([], '%' :: a :: b :: rest)
  | l => ([], l)

/-- Worker for `pyUnquote`; the fuel argument only bounds the recursion
(every step consumes at least one character, so `l.length` fuel suffices). -/
def unquoteGo : Nat → List Char → List Char
  | 0, l => l
  | _ + 1, [] => []
  | fuel + 1, '%' :: a :: b :: rest =>
    match hexDigitVal a, hexDigitVal b with
    | some _, some _ =>
      let p := takeBytes ('%' :: a :: b :: rest)
      utf8Decode p.1 ++ unquoteGo fuel p.2
    | _, _ => '%' :: unquoteGo fuel (a :: b :: rest)
  | fuel + 1, '%' :: rest => '%' :: unquoteGo fuel rest
  | fuel + 1, c :: rest => c :: unquoteGo fuel rest

/-- Python `urllib.parse.unquote` (UTF-8, `errors='replace'`): maximal runs of
valid `%XX` escapes are decoded as UTF-8 byte sequences; a `%` not followed by
two hex digits is kept literally. -/
def pyUnquote (l : PyStr) : PyStr := unquoteGo l.length l

/-- The per-field decoding of `parse_qsl`: `unquote(s.replace('+', ' '))`. -/
def pyUnquotePlus (l : PyStr) : PyStr :=
  pyUnquote (l.map fun c => if c = '+' then ' ' else c)

/-- Split at the first occurrence of `sep`, like Python `s.split(sep, 1)`
when `sep` occurs; `none` when it does not. -/
def splitFirst (sep : Char) : List Char → Option (List Char × List Char)
  | [] => none
  | c :: rest =>
    if c = sep then some ([], rest)
    else
      match splitFirst sep rest with
      | none => none
      | some p => some (c :: p.1, p.2)

/-- Python `s.split(sep)` for a one-character separator. -/
def splitOnChar (sep : Char) : List Char → List (List Char)
  | [] => [[]]
  | c :: rest =>
    let r := splitOnChar sep rest
    if c = sep then [] :: r
    else
      match r with
      | [] => [[c]]
      | h :: t => (c :: h) :: t

/-- The query component as extracted by `urllib.parse.urlparse`: the fragment
is split off at the first `#`, then the query is everything after the first
`?` of what remains. -/
def pyGetQuery (url : PyStr) : PyStr :=
  let beforeFrag := url.takeWhile fun c => !(c == '#')
  match splitFirst '?' beforeFrag with
  | none => []
  | some p => p.2

/-- Python `urllib.parse.parse_qsl` with default arguments: fields are split
on `&`, empty fields are skipped, fields without `=` or with an empty value
are dropped (`keep_blank_values=False`), and names and values are
plus-and-percent decoded. -/
def parse_qsl (qs : PyStr) : List (PyStr × PyStr) :=
  (splitOnChar '&' qs).filterMap fun nv =>
    if nv.isEmpty then none
    else
      match splitFirst '=' nv with
      | none => none
      | some p =>
        if p.2.isEmpty then none
        else some (pyUnquotePlus p.1, pyUnquotePlus p.2)

/-- `query["file"][0]` after `parse_qs` (main.py lines 73-76): the first
decoded value bound to the name `file`, if any.  `parse_qs` groups `parse_qsl`
pairs in order, so the head of the `file` list is the first such pair. -/
def findFileParam (raw : PyStr) : Option PyStr :=
  ((parse_qsl (pyGetQuery raw)).find? fun p => p.1 == "file".data).map
    fun p => p.2

/-- The detail page as seen by `extract_pdf_link_from_page`: the `src`
attribute of the first `<embed type="application/pdf">` tag and of the first
`<iframe>` tag (outer `none` = no such tag, inner `none` = tag without a
`src` attribute). -/
structure DetailPage where
  embedSrc : Option (Option PyStr)
  iframeSrc : Option (Option PyStr)

/-- The viewer reference discovered on a detail page (main.py lines 63-67):
the embed `src` when the embed tag exists and its `src` contains `".pdf"`,
otherwise the iframe `src`.  An iframe without a `src` raises `KeyError`,
which the enclosing handler converts to the same `none` outcome. -/
def discoveredRaw (pg : DetailPage) : Option PyStr :=
  let embedHit :=
    match pg.embedSrc with
    | some srcAttr => hasSub (".pdf".data) (srcAttr.getD [])
    | none => false
  if embedHit then
    match pg.embedSrc with
    | some (some s) => some s
    | _ => none
  else
    match pg.iframeSrc with
    | some (some s) => some s
    | _ => none

/-- `extract_pdf_link_from_page` (main.py lines 58-81).  The oracle `page`
models the fetched and parsed detail page (`none` = fetch or parse
exception); `uj` is `urllib.parse.urljoin`, kept abstract.  When the
discovered reference carries a `file` query parameter, its first decoded
value is returned directly; otherwise the reference is joined against the
detail-page URL. -/
def extract_pdf_link_from_page (uj : PyStr → PyStr → PyStr) (detail_url : PyStr)
    (page : Option DetailPage) : Option PyStr :=
  match page with
  | none => none
  | some pg =>
    match discoveredRaw pg with
    | none => none
    | some raw =>
      if raw.isEmpty then none
      else
        match findFileParam raw with
        | some v => some v
        | none => some (uj detail_url raw)

/-- C7: when the discovered viewer reference carries a `file` query
parameter, the locator returns that parameter's decoded value exactly,
independent of the detail-page URL and of the join function (no joining);
when there is no `file` parameter, it returns the reference joined against
the detail-page URL. -/
theorem extract_pdf_link_file_param_spec (uj uj' : PyStr → PyStr → PyStr)
    (d d' : PyStr) (pg : DetailPage) (raw v : PyStr)
    (hraw : discoveredRaw pg = some raw) (hne : raw.isEmpty = false) :
    (findFileParam raw = some v →
        extract_pdf_link_from_page uj d (some pg) = some v
        ∧ extract_pdf_link_from_page uj d (some pg)
            = extract_pdf_link_from_page uj' d' (some pg))
    ∧ (findFileParam raw = none →
        extract_pdf_link_from_page uj d (some pg) = some (uj d raw)) := by
  constructor
  · intro hf
    constructor <;> simp [extract_pdf_link_from_page, hraw, hne, hf]
  · intro hf
    simp [extract_pdf_link_from_page, hraw, hne, hf]

/-- The spec's end-to-end viewer reference: an embed `src` whose query carries
`file=https://example.com/doc.pdf`. -/
def viewerRefW : PyStr :=
  "https://www.sebi.gov.in/viewer.html?file=https://example.com/doc.pdf".data

/-- C7 witness: on the end-to-end scenario page the locator returns
`https://example.com/doc.pdf` exactly, for two different join functions and
detail-page URLs; and on a reference without a `file` parameter it returns
the joined reference. -/
theorem extract_pdf_link_file_param_spec_witness :
    extract_pdf_link_from_page (fun d r => d ++ r) ("D".data)
        (some ⟨some (some viewerRefW), none⟩)
      = some ("https://example.com/doc.pdf".data)
    ∧ extract_pdf_link_from_page (fun d r => d ++ r) ("D".data)
          (some ⟨some (some viewerRefW), none⟩)
        = extract_pdf_link_from_page (fun _ r => r) ("E".data)
            (some ⟨some (some viewerRefW), none⟩)
    ∧ extract_pdf_link_from_page (fun d r => d ++ r) ("D/".data)
        (some ⟨some (some ("x.pdf".data)), none⟩)
      = some ("D/".data ++ "x.pdf".data) :=
  ⟨((extract_pdf_link_file_param_spec (fun d r => d ++ r) (fun _ r => r)
      ("D".data) ("E".data) ⟨some (some viewerRefW), none⟩ viewerRefW
      ("https://example.com/doc.pdf".data) (by decide) (by decide)).1
      (by decide)).1,
   ((extract_pdf_link_file_param_spec (fun d r => d ++ r) (fun _ r => r)
      ("D".data) ("E".data) ⟨some (some viewerRefW), none⟩ viewerRefW
      ("https://example.com/doc.pdf".data) (by decide) (by decide)).1
      (by decide)).2,
   (extract_pdf_link_file_param_spec (fun d r => d ++ r) (fun _ r => r)
      ("D/".data) ("E".data) ⟨some (some ("x.pdf".data)), none⟩ ("x.pdf".data)
      [] (by decide) (by decide)).2 (by decide)⟩

theorem dropWhile_dropWhile (p : Char → Bool) (l : List Char) :
    (l.dropWhile p).dropWhile p = l.dropWhile p := by
  induction l with
  | nil => rfl
  | cons c l ih =>
    by_cases h : p c
    · simp [List.dropWhile_cons, h, ih]
    · simp [List.dropWhile_cons, h]

theorem dropWhile_suffix (p : Char → Bool) (l : List Char) :
    l.dropWhile p <:+ l := by
  induction l with
  | nil => exact List.suffix_rfl
  | cons c l ih =>
    by_cases h : p c
    · simpa [List.dropWhile_cons, h] using ih.trans (List.suffix_cons c l)
    · simp [List.dropWhile_cons, h]

theorem stripLeft_idem (l : PyStr) : stripLeft (stripLeft l) = stripLeft l :=
  dropWhile_dropWhile pyIsSpace l

theorem stripRight_idem (l : PyStr) : stripRight (stripRight l) = stripRight l := by
  unfold stripRight
  rw [List.reverse_reverse, dropWhile_dropWhile]

theorem stripRight_prefix (m : PyStr) : stripRight m <+: m := by
  obtain ⟨t, ht⟩ := dropWhile_suffix pyIsSpace m.reverse
  refine ⟨t.reverse, ?_⟩
  have : (t ++ m.reverse.dropWhile pyIsSpace).reverse = m := by
    rw [ht, List.reverse_reverse]
  simpa [List.reverse_append, stripRight] using this

theorem dropWhile_length_le (p : Char → Bool) (l : List Char) :
    (l.dropWhile p).length ≤ l.length := by
  induction l with
  | nil => exact Nat.le_refl 0
  | cons c l ih =>
    by_cases h : p c
    · simp only [List.dropWhile_cons, if_pos h, List.length_cons]
      omega
    · simp [List.dropWhile_cons, h]

theorem stripLeft_head_not_space (m : PyStr) (hm : stripLeft m = m) :
    ∀ c cs, m = c :: cs → pyIsSpace c = false := by
  intro c cs hcs
  subst hcs
  by_contra h
  have hc : pyIsSpace c = true := by
    cases hpc : pyIsSpace c
    · exact absurd hpc h
    · rfl
  have hthis : (c :: cs).dropWhile pyIsSpace = c :: cs := hm
  rw [List.dropWhile_cons, if_pos hc] at hthis
  have hlen := congrArg List.length hthis
  have hle := dropWhile_length_le pyIsSpace cs
  simp only [List.length_cons] at hlen
  omega

theorem stripLeft_of_stripLeft_fixed (m : PyStr) (hm : stripLeft m = m) :
    stripLeft (stripRight m) = stripRight m := by
  cases hsr : stripRight m with
  | nil => rfl
  | cons c cs =>
    have hpref : stripRight m <+: m := stripRight_prefix m
    rw [hsr] at hpref
    obtain ⟨t, ht⟩ := hpref
    have hc : pyIsSpace c = false :=
      stripLeft_head_not_space m hm c (cs ++ t) (by rw [← ht]; simp)
    show (c :: cs).dropWhile pyIsSpace = c :: cs
    rw [List.dropWhile_cons, if_neg (by simp [hc])]

theorem pyStrip_idem (l : PyStr) : pyStrip (pyStrip l) = pyStrip l := by
  unfold pyStrip
  rw [stripLeft_of_stripLeft_fixed (stripLeft l) (stripLeft_idem l),
    stripRight_idem]

/-- An `<a>` tag inside the title column: its text content (as delivered by
`get_text(strip=True)`, modelled by stripping) and its optional `href`
attribute (`title_tag["href"]` raises `KeyError` when absent). -/
structure Anchor where
  text : PyStr
  href : Option PyStr
deriving DecidableEq

/-- A `<td>` cell of the first table row: its text content and its first
`<a>` tag, if any. -/
structure Cell where
  text : PyStr
  anchor : Option Anchor
deriving DecidableEq

/-- The first `<tr>` of the table body. -/
structure TableRow where
  cols : List Cell
deriving DecidableEq

/-- The announcements table: its first body row, `none` when `tbody` or a
first `tr` is missing (both paths raise inside the handler). -/
structure IndexTable where
  firstRow : Option TableRow
deriving DecidableEq

/-- The parsed index page: the table found by id `sample_1` or class
`table`, if any. -/
structure IndexPage where
  table : Option IndexTable
deriving DecidableEq

/-- A default cell, used only for the (guarded) positional column reads. -/
def emptyCell : Cell := ⟨[], none⟩

/-- The result row of `get_latest_update` (main.py line 52). -/
structure ListingEntry where
  date : PyStr
  category : PyStr
  title : PyStr
  detail_link : Option PyStr
deriving DecidableEq

/-- The fixed announcements index URL (main.py line 13). -/
def SEBI_URL : PyStr :=
  "https://www.sebi.gov.in/sebiweb/home/HomeAction.do?doListingAll=yes".data

/-- `get_latest_update` (main.py lines 31-55).  The oracle `page` models the
fetched and parsed index page (`none` = fetch exception); `uj` is `urljoin`.
Cell and anchor texts are read with `get_text(strip=True)`, modelled by
`pyStrip`.  A missing table, missing body row, short row, missing title
anchor (`AttributeError` on `get_text`), or missing `href` (`KeyError`) all
land in the broad handler and return `none`.  Note the `else None` branch of
line 50 is unreachable: with no title anchor, line 49 raises first. -/
def get_latest_update (uj : PyStr → PyStr → PyStr) (page : Option IndexPage) :
    Option ListingEntry :=
  match page with
  | none => none
  | some pg =>
    match pg.table with
    | none => none
    | some tbl =>
      match tbl.firstRow with
      | none => none
      | some row =>
        if row.cols.length < 3 then none
        else
          match (row.cols.getD 2 emptyCell).anchor with
          | none => none
          | some a =>
            match a.href with
            | none => none
            | some href =>
              some ⟨pyStrip (row.cols.getD 0 emptyCell).text,
                    pyStrip (row.cols.getD 1 emptyCell).text,
                    pyStrip a.text,
                    some (uj SEBI_URL href)⟩

/-- Shape of every entry `get_latest_update` actually returns: its title is
already whitespace-stripped (`get_text(strip=True)`), and its detail link is
present, the join of the index URL with the anchor's `href`. -/
theorem get_latest_update_shape (uj : PyStr → PyStr → PyStr)
    (page : Option IndexPage) (entry : ListingEntry)
    (h : get_latest_update uj page = some entry) :
    pyStrip entry.title = entry.title
    ∧ ∃ href, entry.detail_link = some (uj SEBI_URL href) := by
  unfold get_latest_update at h
  repeat' split at h
  any_goals exact Option.noConfusion h
  injection h with h'
  subst h'
  exact ⟨pyStrip_idem _, _, rfl⟩

/-- Response of the Telegram sendMessage endpoint as observed by
`send_telegram`: HTTP status and body. -/
structure TgResponse where
  status : Nat
  body : PyStr

/-- `send_telegram` (main.py lines 121-146).  With missing credentials it
returns `False` without posting; otherwise it escapes the message and posts
it (the oracle `post` is keyed by the escaped text; `Except.error` models a
`requests` exception, returning `False`); only an explicit 200 yields
`True`. -/
def send_telegram (cfg : Config) (post : PyStr → Except PyStr TgResponse)
    (message : PyStr) : Bool :=
  if pyFalsy cfg.telegramToken || pyFalsy cfg.telegramChatId then false
  else
    match post (escape_markdown message) with
    | Except.error _ => false
    | Except.ok r => r.status == 200

/-- The notification message composed by `main` (main.py lines 191-198). -/
def compose_message (title summary pdf_url date category : PyStr) : PyStr :=
  "📢 *SEBI Update:* ".data ++ title
    ++ "\n\n📝 *Summary:* \n".data ++ summary
    ++ "\n\n🔗 [Read PDF](".data ++ pdf_url
    ++ ")\n📅 Date: ".data ++ date
    ++ "\n📂 Category: ".data ++ category

/-- One run's external world: the parsed index page, `urljoin`, the
detail-page fetch, the document download body, the `pdfplumber` parse, the
configuration, the two HTTP POST oracles, the persisted state file content
(`none` = absent), and whether reading or writing that file raises (the
exception's message, `none` = no exception). -/
structure Env where
  indexPage : Option IndexPage
  uj : PyStr → PyStr → PyStr
  detailPage : PyStr → Option DetailPage
  docResp : PyStr → Option (List Nat)
  pdfParse : List Nat → Except PyStr (List (Option PyStr))
  cfg : Config
  hfPost : PyStr → Except PyStr HfResponse
  tgPost : PyStr → Except PyStr TgResponse
  fileContent : Option PyStr
  readRaises : Option PyStr
  writeRaises : Option PyStr

/-- Observable outcome of one `main` run: the state file afterwards, the
uncaught exception that reached the process boundary (if any), whether the
notifier confirmed success, and which stages were reached. -/
structure Trace where
  finalFile : Option PyStr
  raised : Option PyStr
  notified : Bool
  haltedAlready : Bool
  haltedNoDetail : Bool
  detailFetched : Bool
  downloadCalled : Bool
  extractCalled : Bool
  summarizeCalled : Bool
  sendCalled : Bool
deriving DecidableEq

/-- The trace of a run that halted before any detail-page work, leaving the
state file as it was. -/
def mkTrace (file : Option PyStr) : Trace :=
  ⟨file, none, false, false, false, false, false, false, false, false⟩

/-- `main` after the duplicate check's stored title has been read
(main.py lines 168-203): the short-circuiting stage chain.  Each early
`return` leaves the state file unchanged; only a confirmed send reaches
`save_last_update`, whose write may itself raise (uncaught). -/
def mainAfterLoad (env : Env) (latest : ListingEntry) (stored : Option PyStr) :
    Trace :=
  if stored = some latest.title then
    { mkTrace env.fileContent with haltedAlready := true }
  else if pyFalsy latest.detail_link then
    { mkTrace env.fileContent with haltedNoDetail := true }
  else
    let dl := latest.detail_link.getD []
    let pdfUrl := extract_pdf_link_from_page env.uj dl (env.detailPage dl)
    if pyFalsy pdfUrl then
      { mkTrace env.fileContent with detailFetched := true }
    else
      let bytes := download_pdf_bytes env.docResp (pdfUrl.getD [])
      if pyFalsyBytes bytes then
        { mkTrace env.fileContent with
            detailFetched := true, downloadCalled := true }
      else
        let text := extract_text_from_pdf_bytes env.pdfParse (bytes.getD [])
        if text.isEmpty then
          { mkTrace env.fileContent with
              detailFetched := true, downloadCalled := true,
              extractCalled := true }
        else
          let summary := summarize_text env.cfg env.hfPost text
          let message := compose_message latest.title summary (pdfUrl.getD [])
            latest.date latest.category
          if send_telegram env.cfg env.tgPost message then
            match env.writeRaises with
            | some e =>
              ⟨env.fileContent, some e, true, false, false, true, true, true,
                true, true⟩
            | none =>
              ⟨some (save_last_update latest.title), none, true, false, false,
                true, true, true, true, true⟩
          else
            ⟨env.fileContent, none, false, false, false, true, true, true,
              true, true⟩

/-- `main` (main.py lines 160-203): fetch the latest entry, read the stored
title (reading an existing state file may raise, uncaught), then run the
stage chain. -/
def mainRun (env : Env) : Trace :=
  match get_latest_update env.uj env.indexPage with
  | none => mkTrace env.fileContent
  | some latest =>
    if env.fileContent.isSome && env.readRaises.isSome then
      { mkTrace env.fileContent with raised := env.readRaises }
    else
      mainAfterLoad env latest (load_last_update env.fileContent)

/-- Case analysis of the stage chain: a run that did not get a confirmed
send leaves the file unchanged; the file changes only to the fetched title
and only with a confirmed send; with a confirmed send and a non-raising
write the file holds the title; without a write exception nothing reaches
the process boundary; and the no-detail-link halt requires a falsy link. -/
theorem mainAfterLoad_spec (env : Env) (latest : ListingEntry)
    (stored : Option PyStr) :
    ((mainAfterLoad env latest stored).notified = false →
        (mainAfterLoad env latest stored).finalFile = env.fileContent)
    ∧ ((mainAfterLoad env latest stored).finalFile ≠ env.fileContent →
        (mainAfterLoad env latest stored).notified = true
        ∧ (mainAfterLoad env latest stored).finalFile = some latest.title)
    ∧ ((mainAfterLoad env latest stored).notified = true →
        env.writeRaises = none →
        (mainAfterLoad env latest stored).finalFile = some latest.title)
    ∧ (env.writeRaises = none → (mainAfterLoad env latest stored).raised = none)
    ∧ (pyFalsy latest.detail_link = false →
        (mainAfterLoad env latest stored).haltedNoDetail = false) := by
  unfold mainAfterLoad
  by_cases h1 : stored = some latest.title
  · simp [h1, mkTrace]
  by_cases h2 : pyFalsy latest.detail_link = true
  · simp [h1, h2, mkTrace]
  simp only [if_neg h1, if_neg h2]
  generalize extract_pdf_link_from_page env.uj (latest.detail_link.getD [])
      (env.detailPage (latest.detail_link.getD [])) = pdfUrl
  by_cases h3 : pyFalsy pdfUrl = true
  · simp [h3, mkTrace]
  simp only [if_neg h3]
  generalize download_pdf_bytes env.docResp (pdfUrl.getD []) = bs
  by_cases h4 : pyFalsyBytes bs = true
  · simp [h4, mkTrace]
  simp only [if_neg h4]
  generalize extract_text_from_pdf_bytes env.pdfParse (bs.getD []) = tx
  by_cases h5 : tx.isEmpty = true
  · simp [h5, mkTrace]
  simp only [if_neg h5]
  by_cases h6 : send_telegram env.cfg env.tgPost
      (compose_message latest.title (summarize_text env.cfg env.hfPost tx)
        (pdfUrl.getD []) latest.date latest.category) = true
  · simp only [if_pos h6]
    cases hw : env.writeRaises with
    | some e => simp [hw, mkTrace, save_last_update]
    | none => simp [hw, mkTrace, save_last_update]
  · simp [h6, mkTrace]

/-- C1: the persisted last-update file changes only when the notifier
returned a confirmed success, and then it holds the fetched entry's title;
whenever the notification is not confirmed successful (including every
early-halting failure), the run ends with the state file unchanged. -/
theorem main_saves_only_on_confirmed_send (env : Env) :
    ((mainRun env).notified = false → (mainRun env).finalFile = env.fileContent)
    ∧ ((mainRun env).finalFile ≠ env.fileContent →
        (mainRun env).notified = true
        ∧ ∃ l, get_latest_update env.uj env.indexPage = some l
            ∧ (mainRun env).finalFile = some l.title) := by
  unfold mainRun
  cases hg : get_latest_update env.uj env.indexPage with
  | none => simp [mkTrace]
  | some latest =>
    by_cases hrr : (env.fileContent.isSome && env.readRaises.isSome) = true
    · simp [hrr, mkTrace]
    · simp only [if_neg hrr]
      have h := mainAfterLoad_spec env latest (load_last_update env.fileContent)
      exact ⟨h.1, fun hne => ⟨(h.2.1 hne).1, latest, rfl, (h.2.1 hne).2⟩⟩

/-- C2: with an unchanged listing, once a run obtains a confirmed
notification (and the state file I/O does not raise), the file holds the
fetched title, and the immediately following run halts at the stored-title
comparison: its whole trace is the already-processed halt, with no
detail-page fetch, no download, no extraction, no summarization, and no send
— so exactly one notification is sent across the two runs. -/
theorem pipeline_idempotent_second_run_halts (env : Env) (l : ListingEntry)
    (h1 : get_latest_update env.uj env.indexPage = some l)
    (h3 : env.readRaises = none)
    (h4 : env.writeRaises = none)
    (h5 : (mainRun env).notified = true) :
    (mainRun env).finalFile = some l.title
    ∧ mainRun { env with fileContent := (mainRun env).finalFile }
        = { mkTrace (some l.title) with haltedAlready := true } := by
  have hstrip := (get_latest_update_shape env.uj env.indexPage l h1).1
  have hrun1 : mainRun env
      = mainAfterLoad env l (load_last_update env.fileContent) := by
    unfold mainRun
    simp [h1, h3]
  have hff : (mainRun env).finalFile = some l.title := by
    rw [hrun1] at h5 ⊢
    exact (mainAfterLoad_spec env l _).2.2.1 h5 h4
  refine ⟨hff, ?_⟩
  rw [hff]
  unfold mainRun
  simp only [h1, h3]
  simp [mainAfterLoad, load_last_update, hstrip, h3]

/-- C4 (amended): exceptions in the fetch/parse/download/extract/summarize/
notify stages are caught and degraded, so in any execution in which reading
and writing the persisted state file does not raise, no error reaches the
process boundary and the process exits 0. -/
theorem main_exits_cleanly_without_state_io_errors (env : Env)
    (hr : env.readRaises = none) (hw : env.writeRaises = none) :
    (mainRun env).raised = none := by
  unfold mainRun
  cases hg : get_latest_update env.uj env.indexPage with
  | none => simp [mkTrace]
  | some latest =>
    simp only [hr, Option.isSome_none, Bool.and_false, Bool.false_eq_true,
      if_false]
    exact (mainAfterLoad_spec env latest _).2.2.2.1 hw

/-- A full-success environment: a well-formed index row, a detail page whose
embed `src` is `x.pdf`, a `%PDF` download, one page of text, no summarizer
key, Telegram credentials present and a 200 response, no state file yet, and
no state-file I/O exceptions. -/
def envW : Env :=
  ⟨some ⟨some ⟨some ⟨[⟨"05-Jan-2024".data, none⟩, ⟨"Circular".data, none⟩,
      ⟨[], some ⟨"Test Circular".data, some ("/doc".data)⟩⟩]⟩⟩⟩,
   fun d r => if r.isEmpty then d else r,
   fun _ => some ⟨some (some ("x.pdf".data)), none⟩,
   fun _ => some pdfMagic,
   fun _ => Except.ok [some ("hello".data)],
   ⟨none, [], some ("t".data), some ("c".data)⟩,
   fun _ => Except.error [],
   fun _ => Except.ok ⟨200, []⟩,
   none, none, none⟩

/-- The listing entry `get_latest_update` produces from `envW`. -/
def entryW : ListingEntry :=
  ⟨"05-Jan-2024".data, "Circular".data, "Test Circular".data,
   some ("/doc".data)⟩

/-- An environment identical to `envW` except that a state file exists and
reading it raises (e.g. a permission error). -/
def envBad : Env :=
  { envW with fileContent := some ("old".data),
              readRaises := some ("PermissionError".data) }

/-- C4 counterexample: in the concrete execution `envBad` — a fetchable
latest entry together with a state file whose read raises — the exception
is not caught anywhere and reaches the process boundary, so it is false
that every execution catches all exceptions (including state-file reads)
and exits 0. -/
theorem main_uncaught_state_file_error_counterexample :
    (mainRun envBad).raised = some ("PermissionError".data)
    ∧ ¬ ∀ env : Env, (mainRun env).raised = none := by
  have h1 : (mainRun envBad).raised = some ("PermissionError".data) := by decide
  exact ⟨h1, fun hall => by rw [hall envBad] at h1; exact Option.noConfusion h1⟩

/-- C4 witness: in the concrete full-success execution `envW` (whose state
file I/O does not raise) nothing reaches the process boundary. -/
theorem main_exits_cleanly_without_state_io_errors_witness :
    (mainRun envW).raised = none :=
  main_exits_cleanly_without_state_io_errors envW rfl rfl

/-- C1 witness: in the concrete full-success execution `envW` the state file
changes (from absent to the fetched title), the notification is confirmed,
and the saved content is the fetched entry's title. -/
theorem main_saves_only_on_confirmed_send_witness :
    (mainRun envW).finalFile ≠ envW.fileContent
    ∧ (mainRun envW).notified = true
    ∧ (mainRun envW).finalFile = some ("Test Circular".data) := by
  have h := (main_saves_only_on_confirmed_send envW).2 (by decide)
  exact ⟨by decide, h.1, by decide⟩

/-- C2 witness: running the pipeline on `envW` notifies and saves
`Test Circular`; running it again on the resulting state halts at the
already-processed check with no further stage work. -/
theorem pipeline_idempotent_second_run_halts_witness :
    (mainRun envW).finalFile = some ("Test Circular".data)
    ∧ mainRun { envW with fileContent := (mainRun envW).finalFile }
        = { mkTrace (some ("Test Circular".data)) with haltedAlready := true } := by
  have h := pipeline_idempotent_second_run_halts envW entryW (by decide) rfl rfl
    (by decide)
  exact ⟨h.1, h.2⟩

/-- C9: every entry `get_latest_update` returns carries a present detail
link (the join of the index URL with the anchor's `href`); when the title
anchor is missing from the third column the function returns `none` (it
fails reading the title before the `detail_link` conditional); and under a
join function that never returns the empty string, the orchestrator's
no-detail-link halt is unreachable. -/
theorem listing_entry_detail_link_present_spec (uj : PyStr → PyStr → PyStr)
    (page : Option IndexPage) (entry : ListingEntry) (env : Env) :
    (get_latest_update uj page = some entry →
        entry.detail_link ≠ none
        ∧ ∃ href, entry.detail_link = some (uj SEBI_URL href))
    ∧ (∀ pg tbl row, page = some pg → pg.table = some tbl →
        tbl.firstRow = some row → ¬ row.cols.length < 3 →
        (row.cols.getD 2 emptyCell).anchor = none →
        get_latest_update uj page = none)
    ∧ ((∀ s, env.uj SEBI_URL s ≠ []) →
        (mainRun env).haltedNoDetail = false) := by
  refine ⟨fun h => ?_, fun pg tbl row hpg htbl hrow hlen hanchor => ?_,
    fun hne => ?_⟩
  · obtain ⟨-, href, hd⟩ := get_latest_update_shape uj page entry h
    exact ⟨by simp [hd], href, hd⟩
  · subst hpg
    unfold get_latest_update
    simp_all
  · unfold mainRun
    cases hg : get_latest_update env.uj env.indexPage with
    | none => simp [mkTrace]
    | some latest =>
      obtain ⟨-, href, hd⟩ :=
        get_latest_update_shape env.uj env.indexPage latest hg
      have hfal : pyFalsy latest.detail_link = false := by
        rw [hd]
        cases hj : env.uj SEBI_URL href with
        | nil => exact absurd hj (hne href)
        | cons a as => rfl
      by_cases hrr : (env.fileContent.isSome && env.readRaises.isSome) = true
      · simp [hrr, mkTrace]
      · simp only [if_neg hrr]
        exact (mainAfterLoad_spec env latest _).2.2.2.2 hfal

/-- An index page whose first row has three columns but no title anchor. -/
def pageNoAnchorW : Option IndexPage :=
  some ⟨some ⟨some ⟨[⟨"05-Jan-2024".data, none⟩, ⟨"Circular".data, none⟩,
      ⟨"Test Circular".data, none⟩]⟩⟩⟩

/-- C9 witness: the entry fetched from `envW` has a present detail link; the
same fetcher on an anchor-less three-column row returns `none`; and the
`envW` run never takes the no-detail-link halt. -/
theorem listing_entry_detail_link_present_spec_witness :
    entryW.detail_link ≠ none
    ∧ get_latest_update envW.uj pageNoAnchorW = none
    ∧ (mainRun envW).haltedNoDetail = false := by
  refine ⟨((listing_entry_detail_link_present_spec envW.uj envW.indexPage
      entryW envW).1 (by decide)).1, ?_, ?_⟩
  · exact (listing_entry_detail_link_present_spec envW.uj pageNoAnchorW entryW
      envW).2.1 ⟨some ⟨some ⟨[⟨"05-Jan-2024".data, none⟩, ⟨"Circular".data,
        none⟩, ⟨"Test Circular".data, none⟩]⟩⟩⟩
      ⟨some ⟨[⟨"05-Jan-2024".data, none⟩, ⟨"Circular".data, none⟩,
        ⟨"Test Circular".data, none⟩]⟩⟩
      ⟨[⟨"05-Jan-2024".data, none⟩, ⟨"Circular".data, none⟩,
        ⟨"Test Circular".data, none⟩]⟩ rfl rfl rfl (by decide) rfl
  · refine (listing_entry_detail_link_present_spec envW.uj envW.indexPage
      entryW envW).2.2 fun s => ?_
    show (if s.isEmpty then SEBI_URL else s) ≠ []
    cases s with
    | nil => decide
    | cons a as => simp
